import Mathlib

/-!
Verification of the structure-acquisition pipeline of the bandgap-predictor
repository (`src/utils.py`, class `MaterialsProcessor`).

The Python code is shallowly embedded: pure helpers become Lean functions,
the mutable processor state (`cached_structures`, the results dict, the
checkpoint file, error-structure files) is threaded explicitly, and the two
genuinely external stages (`_get_mp_structure`, which queries the Materials
Project API, and `_predict_substitution`, which runs pymatgen's `Substitutor`
over an external corpus) are oracles supplied by an `Env`, since both catch
every exception internally and return a structure or `None`.

Numbers are modelled as exact rationals (`ℚ`); Python floats introduce only
sub-ulp deviations, far below the 0.01 tolerances compared against here.
Cell volumes are carried as their squares (`volSq`) so that the hexagonal
lattice volume `a² c √3 / 2` stays rational; every comparison the code makes
against a volume (`volume < 1.0`) is equivalent on squares because volumes
are nonnegative, and `scale_lattice(2 * volume)` becomes `volSq ↦ 4 * volSq`.
-/

namespace Bandgap

/-- Lattices as constructed by the code: `Lattice.cubic(a)` and
`Lattice.hexagonal(a, c)` (pymatgen). -/
inductive Lattice where
  | cubic (a : ℚ)
  | hexagonal (a c : ℚ)
deriving DecidableEq

/-- Square of the cell volume.  Cubic: `(a³)² = a⁶`.  Hexagonal:
`(a² c √3 / 2)² = 3/4 a⁴ c²`.  Kept squared so the value is rational. -/
def Lattice.volSq : Lattice → ℚ
  | .cubic a => a ^ 6
  | .hexagonal a c => 3 / 4 * a ^ 4 * c ^ 2

/-- A fractional site coordinate. -/
abbrev Coord := ℚ × ℚ × ℚ

/-- A pymatgen `Structure`: a cell (represented by its squared volume) plus
parallel lists of species symbols and fractional coordinates. -/
structure PMGStructure where
  volSq : ℚ
  species : List String
  frac_coords : List Coord
deriving DecidableEq

/-- The Python exceptions that the modelled code can raise. -/
inductive PyErr where
  | nameError
  | valueError
  | structureError
deriving DecidableEq

/-- `Structure(lattice, species, coords)`: pymatgen raises when the species
list and the coordinate list disagree in length. -/
def pyStructure (lat : Lattice) (species : List String) (coords : List Coord) :
    Except PyErr PMGStructure :=
  if species.length = coords.length then
    .ok ⟨lat.volSq, species, coords⟩
  else
    .error .structureError

/-- `Structure.from_spacegroup(sg, lattice, species, coords)`.  We model the
result as carrying exactly the listed sites.  Real pymatgen additionally
expands each listed site by the space-group symmetry operations, which can
only *add* sites; every site-count result proved below (all of the form
"site count exceeds element count") is only strengthened by expansion. -/
def from_spacegroup (_sg : String) (lat : Lattice) (species : List String)
    (coords : List Coord) : Except PyErr PMGStructure :=
  pyStructure lat species coords

/-- A parsed pymatgen `Composition`: the ordered (element symbol, amount)
pairs.  `len(comp)` is the number of elements, `comp[el]` the amount, and
`comp.elements` the symbols in order. -/
abbrev Composition := List (String × ℚ)

/-- Python's built-in `abs` on a rational.  (Defined by cases rather than
through Mathlib's lattice `abs` so that it evaluates by kernel reduction.) -/
def pyAbs (q : ℚ) : ℚ := if q < 0 then -q else q

/-- `MaterialsProcessor.is_valid_stoichiometry` (utils.py lines 39-48):

    ratios = [comp[el] for el in comp.elements]
    if len(comp) == 2:
        a, b = ratios
        return any(abs(a/b - r) < 0.01 for r in [1, 0.5, 2, 0.33, 3])
    return True
  except ZeroDivisionError:
    return False

For a two-element composition with second amount `0`, `a/b` raises
`ZeroDivisionError`, which the handler turns into `False`. -/
def is_valid_stoichiometry (comp : Composition) : Bool :=
  match comp with
  | [(_, a), (_, b)] =>
      if b = 0 then
        false
      else
        ([1, 1/2, 2, 33/100, 3] : List ℚ).any
          (fun r => decide (pyAbs (a / b - r) < 1 / 100))
  | _ => true

/-- The sites of a structure: species paired with their coordinates. -/
def PMGStructure.sites (s : PMGStructure) : List (String × Coord) :=
  s.species.zip s.frac_coords

/-- The site order used by `Structure.get_sorted_structure`.  pymatgen sorts
sites by their species (electronegativity, then symbol); we model the sort
key abstractly as the species symbol under string order, which captures
"sites are in a canonical sorted order". -/
def siteLe (p q : String × Coord) : Prop := p.1 ≤ q.1

instance : DecidableRel siteLe :=
  fun p q => inferInstanceAs (Decidable (p.1 ≤ q.1))

instance : IsTotal (String × Coord) siteLe :=
  ⟨fun p q => le_total p.1 q.1⟩

instance : IsTrans (String × Coord) siteLe :=
  ⟨fun _ _ _ h h' => le_trans h h'⟩

/-- `struct.get_sorted_structure()`: same cell, sites reordered canonically. -/
def get_sorted_structure (s : PMGStructure) : PMGStructure :=
  let sorted := List.insertionSort siteLe s.sites
  ⟨s.volSq, sorted.map Prod.fst, sorted.map Prod.snd⟩

/-- `MaterialsProcessor._validate_structure` (lines 75-79):

    if struct.volume < 1.0:
        struct.scale_lattice(struct.volume * 2)
    return struct.get_sorted_structure()

`scale_lattice(v)` rescales the cell to volume `v`; doubling the volume
quadruples its square. -/
def _validate_structure (s : PMGStructure) : PMGStructure :=
  let s' := if s.volSq < 1 then { s with volSq := 4 * s.volSq } else s
  get_sorted_structure s'

/-- `MaterialsProcessor._generate_ternary_112` (lines 122-142).  Builds the
ABX₂ hexagonal prototype when the composition has exactly 3 elements and
passes the stoichiometry check; `None` otherwise or when the space-group
construction raises. -/
def _generate_ternary_112 (comp : Composition) : Option PMGStructure :=
  if comp.length = 3 ∧ is_valid_stoichiometry comp then
    let elements := comp.map Prod.fst
    let e0 := elements.getD 0 ""
    let e1 := elements.getD 1 ""
    let e2 := elements.getD 2 ""
    match from_spacegroup "P-3m1" (.hexagonal 3 5) [e0, e1, e2, e2]
        [(0, 0, 0), (1/3, 2/3, 1/2), (1/3, 2/3, 1/4), (2/3, 1/3, 3/4)] with
    | .ok s => some s
    | .error _ => none
  else
    none

/-- `MaterialsProcessor._generate_binary_13` (lines 144-165).  Builds the
AB₃-labelled cubic prototype (one A site plus four B sites) when the
composition has exactly 2 elements and passes the stoichiometry check. -/
def _generate_binary_13 (comp : Composition) : Option PMGStructure :=
  if comp.length = 2 ∧ is_valid_stoichiometry comp then
    let elements := comp.map Prod.fst
    let e0 := elements.getD 0 ""
    let e1 := elements.getD 1 ""
    match from_spacegroup "Pm-3m" (.cubic 6) (e0 :: List.replicate 4 e1)
        [(0, 0, 0), (1/2, 1/2, 1/2), (1/2, 0, 0), (0, 1/2, 0), (0, 0, 1/2)] with
    | .ok s => some s
    | .error _ => none
  else
    none

/-- `MaterialsProcessor._generate_fallback` (lines 167-181):

    struct = None
    if len(comp) == 3:
        struct = self._generate_ternary_112(comp)
    elif len(comp) == 2:
        struct = self._generate_binary_13(comp)
    if struct and len(struct) == len(comp):  # Check atom count matches composition
        return struct
    (falls off the end: returns None)

Note `len(struct)` is the number of sites while `len(comp)` is the number of
distinct elements. -/
def _generate_fallback (comp : Composition) : Option PMGStructure :=
  let struct :=
    if comp.length = 3 then _generate_ternary_112 comp
    else if comp.length = 2 then _generate_binary_13 comp
    else none
  match struct with
  | some s => if s.species.length = comp.length then some s else none
  | none => none

/-- `MaterialsProcessor._generate_emergency_structure` (lines 183-194):

    try:
        elements = [e.symbol for e in comp.elements] or ["H"]
        return Structure(Lattice.cubic(4.0),
                         elements[:1] * max(1, len(elements)),  # Ensure minimum 1 atom
                         [[0,0,0]])
    except:
        return Structure(Lattice.cubic(4.0), ["H"], [[0,0,0]])

The species list is `elements[:1]` repeated `max(1, len(elements))` times,
paired with a single coordinate; when their lengths differ the `Structure`
constructor raises and the bare `except` returns the hydrogen placeholder. -/
def _generate_emergency_structure (comp : Composition) : PMGStructure :=
  let elements := if comp.isEmpty then ["H"] else comp.map Prod.fst
  let species := (List.replicate (max 1 elements.length) (elements.take 1)).flatten
  match pyStructure (.cubic 4) species [(0, 0, 0)] with
  | .ok s => s
  | .error _ => ⟨(Lattice.cubic 4).volSq, ["H"], [(0, 0, 0)]⟩

/-- The outcome of one `retry` call: the returned value (`none` = Python
`None`), the sequence of back-off sleeps performed (in seconds), the error
messages appended to `self.error_log`, and how many times the wrapped
operation was invoked. -/
structure RetryResult (α : Type) where
  result : Option α
  sleeps : List ℚ
  errors : List String
  calls : Nat
deriving DecidableEq

/-- The loop body of `MaterialsProcessor.retry` (lines 23-37):

    for attempt in range(max_retries):
        try:
            result = func()
            if result:
                return result
        except Exception as e:
            if attempt == max_retries - 1:
                self.error_log.append(str(e))
                return None
            time.sleep(backoff_factor ** attempt)
    return None

The operation is indexed by the attempt number (the external world may answer
differently on different attempts); `.ok (some a)` is a truthy result,
`.ok none` a falsy one, `.error e` a raised exception.  The second `Nat`
argument is the number of remaining loop iterations, so "last attempt"
(`attempt == max_retries - 1`) is "remaining = 0 after this one". -/
def retryLoop {α : Type} (op : Nat → Except String (Option α)) (backoff : ℚ) :
    Nat → Nat → RetryResult α
  | _, 0 => ⟨none, [], [], 0⟩
  | attempt, remaining + 1 =>
    match op attempt with
    | .ok (some a) => ⟨some a, [], [], 1⟩
    | .ok none =>
        let rest := retryLoop op backoff (attempt + 1) remaining
        ⟨rest.result, rest.sleeps, rest.errors, rest.calls + 1⟩
    | .error e =>
        if remaining = 0 then
          ⟨none, [], [e], 1⟩
        else
          let rest := retryLoop op backoff (attempt + 1) remaining
          ⟨rest.result, backoff ^ attempt :: rest.sleeps, rest.errors, rest.calls + 1⟩

/-- `MaterialsProcessor.retry(func, max_retries=5, backoff_factor=2)`. -/
def retry {α : Type} (op : Nat → Except String (Option α)) (maxRetries : Nat)
    (backoff : ℚ) : RetryResult α :=
  retryLoop op backoff 0 maxRetries

/-- Python truthiness of an optional structure: `None` and a zero-site
structure (whose `__len__` is 0) are falsy. -/
def pyTruthy (x : Option PMGStructure) : Option PMGStructure :=
  match x with
  | some s => if s.species.isEmpty then none else some s
  | none => none

/-- The external world the processor runs against.

`parse` models `Composition(formula)`; `none` means the pymatgen parser
raises (e.g. an unknown element symbol).  `mp_structure` models
`_get_mp_structure` (lines 81-92) and `predict_sub` models
`_predict_substitution` (lines 94-120): both repository methods catch every
exception internally and return a structure or `None`, so each is an oracle
from its inputs and the attempt number (the external service may answer
differently on different attempts) to an optional structure. -/
structure Env where
  parse : String → Option Composition
  mp_structure : String → Nat → Option PMGStructure
  predict_sub : Composition → Nat → Option PMGStructure

/-- Python dict lookup on an association list with distinct keys. -/
def dictFind {V : Type} (m : List (String × V)) (k : String) : Option V :=
  match m with
  | [] => none
  | (k', v) :: rest => if k' = k then some v else dictFind rest k

/-- Python dict assignment `m[k] = v`: overwrite in place, append if new. -/
def dictInsert {V : Type} (m : List (String × V)) (k : String) (v : V) :
    List (String × V) :=
  match m with
  | [] => [(k, v)]
  | (k', v') :: rest =>
      if k' = k then (k, v) :: rest else (k', v') :: dictInsert rest k v

/-- Which stage produced the structure returned by one pipeline call. -/
inductive Prov where
  | cached
  | database
  | substitution
  | fallback
  | emergency
deriving DecidableEq

/-- Everything observable about one `get_or_create_structure` call: the
returned value (or the exception it raises), the cache afterwards, how many
times each acquisition stage was invoked, the error-log entries appended,
and the stage that produced the result. -/
structure ResolveResult where
  result : Except PyErr PMGStructure
  cache : List (String × PMGStructure)
  dbCalls : Nat
  subCalls : Nat
  fbCalls : Nat
  errors : List String
  prov : Option Prov

/-- `MaterialsProcessor.get_or_create_structure` (lines 50-73):

    try:
        comp = Composition(formula)
        if not self.is_valid_stoichiometry(comp):
            raise ValueError(...)
        if formula in self.cached_structures:
            return self.cached_structures[formula]
        struct = self.retry(lambda: self._get_mp_structure(formula)) or \
                 self.retry(lambda: self._predict_substitution(comp)) or \
                 self.retry(lambda: self._generate_fallback(comp))
        if struct:
            struct = self._validate_structure(struct)
            self.cached_structures[formula] = struct
            return struct
        return self._generate_emergency_structure(comp)
    except Exception as e:
        return self._generate_emergency_structure(comp)

When `Composition(formula)` itself raises, the handler's reference to the
local `comp` — never assigned — raises `UnboundLocalError` (a `NameError`),
which propagates to the caller; this is the `.error .nameError` branch.
When the stoichiometry `ValueError` is caught, `comp` is bound and the
handler returns the emergency structure.  The retried stage operations never
raise (each catches internally), so they are passed to `retry` as `.ok`
results, filtered through Python truthiness. -/
def get_or_create_structure (env : Env) (cache : List (String × PMGStructure))
    (formula : String) : ResolveResult :=
  match env.parse formula with
  | none => ⟨.error .nameError, cache, 0, 0, 0, [], none⟩
  | some comp =>
    if is_valid_stoichiometry comp = false then
      ⟨.ok (_generate_emergency_structure comp), cache, 0, 0, 0, [], some .emergency⟩
    else
      match dictFind cache formula with
      | some s => ⟨.ok s, cache, 0, 0, 0, [], some .cached⟩
      | none =>
        let rdb := retry (fun n => .ok (pyTruthy (env.mp_structure formula n))) 5 2
        match rdb.result with
        | some s =>
            let v := _validate_structure s
            ⟨.ok v, dictInsert cache formula v, rdb.calls, 0, 0, rdb.errors,
              some .database⟩
        | none =>
          let rsub := retry (fun n => .ok (pyTruthy (env.predict_sub comp n))) 5 2
          match rsub.result with
          | some s =>
              let v := _validate_structure s
              ⟨.ok v, dictInsert cache formula v, rdb.calls, rsub.calls, 0,
                rdb.errors ++ rsub.errors, some .substitution⟩
          | none =>
            let rfb := retry (fun _ => .ok (pyTruthy (_generate_fallback comp))) 5 2
            match rfb.result with
            | some s =>
                let v := _validate_structure s
                ⟨.ok v, dictInsert cache formula v, rdb.calls, rsub.calls,
                  rfb.calls, rdb.errors ++ rsub.errors ++ rfb.errors,
                  some .fallback⟩
            | none =>
                ⟨.ok (_generate_emergency_structure comp), cache, rdb.calls,
                  rsub.calls, rfb.calls, rdb.errors ++ rsub.errors ++ rfb.errors,
                  some .emergency⟩

/-- The processor state that `process_formulas` reads and writes: the
structure cache, the results dict accumulated so far, the checkpoint file
contents written after each batch, and the names of the `_ERROR.cif` files
written by `_save_error_structure`. -/
structure BatchState where
  cache : List (String × PMGStructure)
  results : List (String × PMGStructure)
  checkpoints : List (List String)
  errorFiles : List String

/-- The per-formula body of the batch loop (lines 205-213):

    try:
        struct = self.get_or_create_structure(formula)
        struct.to(filename=..., fmt="cif")
        batch_results[formula] = struct
    except Exception as e:
        self._save_error_structure(formula)

The CIF write is modelled as always succeeding; the only exception source is
the pipeline call itself.  A raising formula produces an error file but no
entry in the results dict. -/
def processOne (env : Env) (st : BatchState) (formula : String) : BatchState :=
  let r := get_or_create_structure env st.cache formula
  match r.result with
  | .ok s =>
      { st with cache := r.cache, results := dictInsert st.results formula s }
  | .error _ =>
      { st with cache := r.cache, errorFiles := st.errorFiles ++ [formula] }

/-- One iteration of the outer batch loop (lines 200-219): process every
formula of the batch, merge `batch_results` into `results` (the fold already
writes through to `results`, matching `results.update(batch_results)` since
the per-batch keys are disjoint from nothing — `update` overwrites), then
persist a checkpoint of the result keys (`_save_checkpoint`, lines 233-236)
and sleep `delay` seconds (not modelled). -/
def processBatch (env : Env) (st : BatchState) (batch : List String) : BatchState :=
  let st' := batch.foldl (processOne env) st
  { st' with checkpoints := st'.checkpoints ++ [st'.results.map Prod.fst] }

/-- The loop body of `range(0, len(formulas), batch_size)` slicing
`formulas[i:i+batch_size]`: peel off `n` elements at a time.  The first
argument is loop fuel — every iteration of a positive-step `range` loop
consumes at least one element, so `l.length` iterations always suffice; the
fuel keeps the recursion structural.  (`drop (n-1) xs` is
`drop n (x :: xs)`.) -/
def chunksGo {α : Type} (n : Nat) : Nat → List α → List (List α)
  | _, [] => []
  | 0, _ :: _ => []
  | fuel + 1, x :: xs => ((x :: xs).take n) :: chunksGo n fuel (xs.drop (n - 1))

/-- `formulas[i:i+batch_size]` for `i in range(0, len(formulas), batch_size)`:
the consecutive chunks of the list.  (`range` with step 0 raises in Python;
the claims only concern a positive batch size, so that case is mapped to no
batches.) -/
def chunksOf {α : Type} (n : Nat) (l : List α) : List (List α) :=
  if n = 0 then [] else chunksGo n l.length l

/-- `MaterialsProcessor.process_formulas(formulas, batch_size=5, delay=10)`
(lines 196-222): fold the batch body over the consecutive batches and return
the final state (the Python function returns `results`; the other fields are
the observable side effects). -/
def process_formulas (env : Env) (st : BatchState) (formulas : List String)
    (batchSize : Nat) : BatchState :=
  (chunksOf batchSize formulas).foldl (processBatch env) st

/-- The claimed stoichiometry contract, written from the claim's words:
accept a two-element composition iff the ratio of the two counts, taken in
either order, is within 0.01 of one of {1, 0.5, 2, 1/3, 3}; accept any other
element count.  (To be compared with `is_valid_stoichiometry`, which the
code actually implements.) -/
def claim_stoichiometry (comp : Composition) : Bool :=
  match comp with
  | [(_, a), (_, b)] =>
      ([1, 1/2, 2, 1/3, 3] : List ℚ).any (fun r =>
        decide ((b ≠ 0 ∧ pyAbs (a / b - r) < 1 / 100) ∨
          (a ≠ 0 ∧ pyAbs (b / a - r) < 1 / 100)))
  | _ => true

/-- The amended stoichiometry contract: the code accepts a two-element
composition iff the ratio of the first count to the second (in the stored
element order only) is within 0.01 of one of {1, 0.5, 2, 0.33, 3} — the
approximation 0.33, not 1/3 — rejecting when the second count is zero, and
accepts any other element count unconditionally. -/
def amended_stoichiometry (comp : Composition) : Bool :=
  match comp with
  | [(_, a), (_, b)] =>
      if b = 0 then false
      else
        decide (pyAbs (a / b - 1) < 1 / 100 ∨ pyAbs (a / b - 1/2) < 1 / 100 ∨
          pyAbs (a / b - 2) < 1 / 100 ∨ pyAbs (a / b - 33/100) < 1 / 100 ∨
          pyAbs (a / b - 3) < 1 / 100)
  | _ => true

/-- A concrete environment in which "NaCl", "AlN3" and "BeAlN2" parse to
their compositions, every other formula fails to parse (as pymatgen's parser
does for a string such as "Zz" that names no element), and both the
database and the substitution predictor never yield a structure. -/
def envMiss : Env where
  parse f :=
    if f = "NaCl" then some [("Na", 1), ("Cl", 1)]
    else if f = "AlN3" then some [("Al", 1), ("N", 3)]
    else if f = "BeAlN2" then some [("Be", 1), ("Al", 1), ("N", 2)]
    else none
  mp_structure _ _ := none
  predict_sub _ _ := none

/-- A single-site rock-salt-like structure used as a concrete database
answer. -/
def dbStruct : PMGStructure := ⟨4096, ["Na"], [(0, 0, 0)]⟩

/-- Like `envMiss`, but the database lookup for "NaCl" succeeds with
`dbStruct` on every attempt. -/
def envHit : Env where
  parse f :=
    if f = "NaCl" then some [("Na", 1), ("Cl", 1)]
    else if f = "AlN3" then some [("Al", 1), ("N", 3)]
    else if f = "BeAlN2" then some [("Be", 1), ("Al", 1), ("N", 2)]
    else none
  mp_structure f _ := if f = "NaCl" then some dbStruct else none
  predict_sub _ _ := none

/-- The fresh processor state: empty cache, no results, no checkpoints, no
error files. -/
def emptyBatchState : BatchState := ⟨[], [], [], []⟩

/-- A formula is accounted for by a batch state when the results dict has an
entry for it or an `_ERROR.cif` file was written for it. -/
def Accounted (st : BatchState) (f : String) : Prop :=
  (dictFind st.results f).isSome = true ∨ f ∈ st.errorFiles

/-! ## Helper lemmas -/

theorem retryLoop_falsy {α : Type} (b : ℚ) :
    ∀ m a, retryLoop (fun _ => Except.ok (none : Option α)) b a m = ⟨none, [], [], m⟩ := by
  intro m
  induction m with
  | zero => intro a; rfl
  | succ m ih => intro a; simp [retryLoop, ih (a + 1)]

theorem retryLoop_raise {α : Type} (e : Nat → String) (b : ℚ) :
    ∀ r a, retryLoop (α := α) (fun n => Except.error (e n)) b a (r + 1) =
      ⟨none, (List.range r).map (fun i => b ^ (a + i)), [e (a + r)], r + 1⟩ := by
  intro r
  induction r with
  | zero => intro a; simp [retryLoop]
  | succ r ih =>
      intro a
      have step : retryLoop (α := α) (fun n => Except.error (e n)) b a (r + 1 + 1) =
          ⟨(retryLoop (α := α) (fun n => Except.error (e n)) b (a + 1) (r + 1)).result,
            b ^ a :: (retryLoop (α := α) (fun n => Except.error (e n)) b (a + 1) (r + 1)).sleeps,
            (retryLoop (α := α) (fun n => Except.error (e n)) b (a + 1) (r + 1)).errors,
            (retryLoop (α := α) (fun n => Except.error (e n)) b (a + 1) (r + 1)).calls + 1⟩ := rfl
      rw [step, ih (a + 1)]
      have h1 : a + 1 + r = a + (r + 1) := by omega
      rw [h1]
      simp only [RetryResult.mk.injEq, and_true, true_and]
      rw [List.range_succ_eq_map, List.map_cons, List.map_map]
      refine congrArg₂ List.cons (by rw [Nat.add_zero]) ?_
      refine List.map_congr_left ?_
      intro i _
      simp only [Function.comp_apply]
      congr 1
      omega

theorem retryLoop_calls_le {α : Type} (op : Nat → Except String (Option α)) (b : ℚ) :
    ∀ m a, (retryLoop op b a m).calls ≤ m := by
  intro m
  induction m with
  | zero => intro a; exact Nat.le_refl 0
  | succ m ih =>
      intro a
      simp only [retryLoop]
      cases op a with
      | ok o =>
          cases o with
          | some x => exact Nat.succ_le_succ (Nat.zero_le m)
          | none => exact Nat.succ_le_succ (ih (a + 1))
      | error e =>
          by_cases hm : m = 0
          · simp [hm]
          · simp only [if_neg hm]
            exact Nat.succ_le_succ (ih (a + 1))

theorem retryLoop_none_calls {α : Type} (op : Nat → Except String (Option α)) (b : ℚ) :
    ∀ m a, (retryLoop op b a m).result = none → (retryLoop op b a m).calls = m := by
  intro m
  induction m with
  | zero => intro a _; rfl
  | succ m ih =>
      intro a
      simp only [retryLoop]
      cases op a with
      | ok o =>
          cases o with
          | some x => intro h; exact absurd h (by simp)
          | none => intro h; exact congrArg (· + 1) (ih (a + 1) h)
      | error e =>
          by_cases hm : m = 0
          · simp [hm]
          · simp only [if_neg hm]
            intro h
            exact congrArg (· + 1) (ih (a + 1) h)

theorem retry_none_calls {α : Type} (op : Nat → Except String (Option α)) (b : ℚ)
    (m : Nat) (h : (retry op m b).result = none) : (retry op m b).calls = m :=
  retryLoop_none_calls op b m 0 h

theorem dictFind_insert {V : Type} (m : List (String × V)) (k f : String) (v : V) :
    dictFind (dictInsert m k v) f = if k = f then some v else dictFind m f := by
  induction m with
  | nil => simp [dictInsert, dictFind]
  | cons p rest ih =>
      obtain ⟨k', v'⟩ := p
      by_cases h : k' = k
      · subst h
        by_cases hf : k' = f <;> simp [dictInsert, dictFind, hf]
      · by_cases hf : k' = f
        · subst hf
          have : ¬ k = k' := fun hk => h hk.symm
          simp [dictInsert, dictFind, h, this]
        · simp [dictInsert, dictFind, h, hf, ih]

theorem zip_map_fst_snd {α β : Type} (l : List (α × β)) :
    (l.map Prod.fst).zip (l.map Prod.snd) = l := by
  induction l with
  | nil => rfl
  | cons p rest ih => simp [ih]

theorem validate_sites_sorted (s : PMGStructure) :
    List.Sorted siteLe (_validate_structure s).sites := by
  unfold _validate_structure get_sorted_structure PMGStructure.sites
  simp only
  rw [zip_map_fst_snd]
  exact List.sorted_insertionSort siteLe _

/-- Exhaustive characterization of one pipeline call by the stage that
produced its result, with the per-stage invocation counts forced by the
control flow: a stage is reached only after the previous retried stage has
exhausted all 5 attempts. -/
theorem resolve_branches (env : Env) (cache : List (String × PMGStructure))
    (formula : String) :
    (let r := get_or_create_structure env cache formula;
      (r.dbCalls = 0 ∧ r.subCalls = 0 ∧ r.fbCalls = 0 ∧
        (r.prov = none ∨ r.prov = some .emergency ∨ r.prov = some .cached)) ∨
      (r.prov = some .database ∧ r.subCalls = 0 ∧ r.fbCalls = 0) ∨
      (r.prov = some .substitution ∧ r.dbCalls = 5 ∧ r.fbCalls = 0) ∨
      ((r.prov = some .fallback ∨ r.prov = some .emergency) ∧
        r.dbCalls = 5 ∧ r.subCalls = 5)) := by
  simp only [get_or_create_structure]
  split
  · simp
  · split
    · simp
    · split
      · simp
      · split
        · simp
        · rename_i hdb
          split
          · rename_i hsub
            refine Or.inr (Or.inr (Or.inl ⟨rfl, ?_, rfl⟩))
            exact retry_none_calls _ _ 5 hdb
          · rename_i hsub
            split
            · refine Or.inr (Or.inr (Or.inr ⟨Or.inl rfl, ?_, ?_⟩))
              · exact retry_none_calls _ _ 5 hdb
              · exact retry_none_calls _ _ 5 hsub
            · refine Or.inr (Or.inr (Or.inr ⟨Or.inr rfl, ?_, ?_⟩))
              · exact retry_none_calls _ _ 5 hdb
              · exact retry_none_calls _ _ 5 hsub

/-! ## The claims -/

/-- Claim C1 (code_bug): the claim states that `get_or_create_structure`
never raises, even when the formula cannot be parsed into a composition.
In the code, when `Composition(formula)` raises, the `except` handler
evaluates `self._generate_emergency_structure(comp)` with the local `comp`
never having been assigned, so an `UnboundLocalError` (a `NameError`)
propagates to the caller: for the unparseable formula "Zz" the call raises
instead of returning a structure. -/
theorem c1_unparseable_formula_raises :
    (get_or_create_structure envMiss [] "Zz").result = Except.error PyErr.nameError := rfl

unseal Rat.add Rat.sub Rat.mul Rat.inv in
/-- Claim C3 (code_bug): the claim states that the prototype generator
returns a 5-site structure for a valid binary composition and a 4-site
structure for a valid ternary composition.  `_generate_binary_13` and
`_generate_ternary_112` do build those structures, but `_generate_fallback`
then guards them with `len(struct) == len(comp)`, comparing the site count
(5, resp. 4) with the number of distinct elements (2, resp. 3) — the inline
comment says "atom count" but `len` of a pymatgen `Composition` is its
element count — so the prototype stage returns `None` for every
composition. -/
theorem c3_prototype_always_rejected :
    (_generate_binary_13 [("Al", 1), ("N", 3)]).map (fun s => s.species.length) = some 5 ∧
    _generate_fallback [("Al", 1), ("N", 3)] = none ∧
    (_generate_ternary_112 [("Be", 1), ("Al", 1), ("N", 2)]).map
      (fun s => s.species.length) = some 4 ∧
    _generate_fallback [("Be", 1), ("Al", 1), ("N", 2)] = none := by decide

unseal Rat.add Rat.sub Rat.mul Rat.inv in
/-- Claim C4, counterexample: the claim states that prototype generation is
attempted *without* retry.  In the code the fallback generator is wrapped in
`self.retry(...)` exactly like the database and substitution stages: for
"NaCl" (database and substitution miss) the fallback stage is invoked 5
times — the full retry budget — before the emergency stage, not once. -/
theorem c4_counterexample :
    (get_or_create_structure envMiss [] "NaCl").fbCalls = 5 ∧
    (get_or_create_structure envMiss [] "NaCl").prov = some Prov.emergency := by
  exact ⟨by decide, by decide⟩

unseal Rat.add Rat.sub Rat.mul Rat.inv in
/-- Claim C4, amended: the pipeline attempts cache lookup, then database
fetch under retry, then substitution under retry, then prototype generation
*also under retry*, then emergency generation, short-circuiting at the first
stage that yields a structure: a cached formula (that re-parses and passes
the stoichiometry check, as every cached formula does) is returned without
invoking any acquisition stage; the substitution stage runs only after the
database stage exhausted its 5 attempts; the prototype stage only after the
substitution stage exhausted its 5 attempts; and a database- or
substitution-produced result short-circuits all later stages. -/
theorem c4_amended_order (env : Env) (cache : List (String × PMGStructure))
    (formula : String) :
    (∀ comp s, env.parse formula = some comp → is_valid_stoichiometry comp = true →
        dictFind cache formula = some s →
        get_or_create_structure env cache formula =
          ⟨.ok s, cache, 0, 0, 0, [], some .cached⟩) ∧
    ((get_or_create_structure env cache formula).subCalls ≠ 0 →
        (get_or_create_structure env cache formula).dbCalls = 5) ∧
    ((get_or_create_structure env cache formula).fbCalls ≠ 0 →
        (get_or_create_structure env cache formula).dbCalls = 5 ∧
        (get_or_create_structure env cache formula).subCalls = 5) ∧
    ((get_or_create_structure env cache formula).prov = some .database →
        (get_or_create_structure env cache formula).subCalls = 0 ∧
        (get_or_create_structure env cache formula).fbCalls = 0) ∧
    ((get_or_create_structure env cache formula).prov = some .substitution →
        (get_or_create_structure env cache formula).fbCalls = 0) := by
  have hb := resolve_branches env cache formula
  simp only at hb
  refine ⟨?_, ?_, ?_, ?_, ?_⟩
  · intro comp s hp hv hc
    simp [get_or_create_structure, hp, hv, hc]
  · intro h
    rcases hb with ⟨_, h2, _, _⟩ | ⟨_, h2, _⟩ | ⟨_, h2, _⟩ | ⟨_, h2, _⟩ <;>
      first | exact absurd h2 h | exact h2
  · intro h
    rcases hb with ⟨_, _, h3, _⟩ | ⟨_, _, h3⟩ | ⟨_, _, h3⟩ | ⟨_, h2, h3⟩ <;>
      first | exact absurd h3 h | exact ⟨h2, h3⟩
  · intro h
    rcases hb with ⟨_, _, _, hp | hp | hp⟩ | ⟨_, h2, h3⟩ | ⟨hp, _, _⟩ | ⟨hp | hp, _, _⟩ <;>
      first
        | (rw [h] at hp; exact absurd hp (by simp))
        | exact ⟨h2, h3⟩
  · intro h
    rcases hb with ⟨_, _, h3, hp | hp | hp⟩ | ⟨hp, _, h3⟩ | ⟨_, _, h3⟩ | ⟨hp | hp, _, _⟩ <;>
      first
        | (rw [h] at hp; exact absurd hp (by simp))
        | exact h3

unseal Rat.add Rat.sub Rat.mul Rat.inv in
/-- Witness for the amended C4 theorem at concrete inputs: a cached "NaCl"
is returned with zero stage invocations, and for an uncached "NaCl" whose
database and substitution stages miss, each later stage starts only after
5 attempts of the previous one. -/
theorem c4_amended_order_witness :
    get_or_create_structure envMiss [("NaCl", dbStruct)] "NaCl" =
      ⟨.ok dbStruct, [("NaCl", dbStruct)], 0, 0, 0, [], some .cached⟩ ∧
    (get_or_create_structure envMiss [] "NaCl").dbCalls = 5 ∧
    (get_or_create_structure envMiss [] "NaCl").subCalls = 5 :=
  ⟨(c4_amended_order envMiss [("NaCl", dbStruct)] "NaCl").1 [("Na", 1), ("Cl", 1)]
      dbStruct rfl (by decide) rfl,
    (c4_amended_order envMiss [] "NaCl").2.1 (by decide),
    ((c4_amended_order envMiss [] "NaCl").2.2.1 (by decide)).2⟩

unseal Rat.add Rat.sub Rat.mul Rat.inv in
/-- Claim C5, counterexample: the claim states acceptance iff the count
ratio, taken in either order, is within 0.01 of one of {1, 0.5, 2, 1/3, 3}.
For counts 171 and 500 the ratio 171/500 = 0.342 is within 0.01 of 1/3, so
the claimed contract accepts, but the code compares against the literal
0.33 (|0.342 - 0.33| = 0.012) and rejects — in both element orders. -/
theorem c5_counterexample :
    claim_stoichiometry [("K", 171), ("Cl", 500)] = true ∧
    is_valid_stoichiometry [("K", 171), ("Cl", 500)] = false ∧
    is_valid_stoichiometry [("Cl", 500), ("K", 171)] = false := by decide

unseal Rat.add Rat.sub Rat.mul Rat.inv in
/-- Claim C5, amended: for a two-element composition the validator accepts
iff the ratio of the first stored count to the second is within 0.01 of one
of {1, 0.5, 2, 0.33, 3} (the literal 0.33, only in this one order); a zero
second count yields False (the caught ZeroDivisionError); any other element
count is accepted unconditionally.  The claim's concrete examples hold:
a 1:1 ratio is accepted and a 1:1.7 ratio is rejected. -/
theorem c5_amended (comp : Composition) :
    is_valid_stoichiometry comp = amended_stoichiometry comp ∧
    is_valid_stoichiometry [("Na", 1), ("Cl", 1)] = true ∧
    is_valid_stoichiometry [("X", 1), ("Y", 17/10)] = false := by
  refine ⟨?_, by decide, by decide⟩
  rcases comp with _ | ⟨⟨x, a⟩, tail⟩
  · rfl
  rcases tail with _ | ⟨⟨y, b⟩, tail2⟩
  · rfl
  rcases tail2 with _ | ⟨p, rest⟩
  · by_cases hb : b = 0
    · simp [is_valid_stoichiometry, amended_stoichiometry, hb]
    · simp only [is_valid_stoichiometry, amended_stoichiometry, if_neg hb,
        List.any_cons, List.any_nil, Bool.decide_or, Bool.or_false]
  · rfl

/-- Claim C6, counterexample: the claim states that after an invocation that
returns an empty/falsy result the executor waits `backoff_base^attempt`
before the next attempt, and that on exhaustion the last error is appended
to the error log.  For an operation that always returns a falsy result the
code performs all 5 attempts with *no* sleeps between them and appends
*nothing* to the error log (the sleep and the append are both inside the
`except` clause, which falsy results never enter). -/
theorem c6_counterexample :
    retry (fun _ => Except.ok (none : Option PMGStructure)) 5 2 =
      ⟨none, [], [], 5⟩ :=
  retryLoop_falsy 2 5 0

/-- Claim C6, amended: the executor invokes the operation at most
`max_retries` times; it waits `backoff_base^attempt` seconds only when an
invocation raises and is not the final attempt; an invocation that returns
an empty/falsy result is retried immediately with no sleep and, on
exhaustion by falsy results, nothing is logged; when the final attempt
raises, that last error is appended to the error log and None is returned —
in particular, for an operation that always raises, the code makes exactly
`max_retries` attempts, sleeps `backoff^0, ..., backoff^(max_retries-2)`,
and logs exactly one error entry. -/
theorem c6_amended :
    (∀ (op : Nat → Except String (Option PMGStructure)) (m : Nat) (b : ℚ),
        (retry op m b).calls ≤ m) ∧
    (∀ (e : Nat → String) (m : Nat) (b : ℚ),
        retry (α := PMGStructure) (fun n => Except.error (e n)) (m + 1) b =
          ⟨none, (List.range m).map (fun i => b ^ i), [e m], m + 1⟩) ∧
    (∀ (m : Nat) (b : ℚ),
        retry (fun _ => Except.ok (none : Option PMGStructure)) m b =
          ⟨none, [], [], m⟩) :=
  ⟨fun op m b => retryLoop_calls_le op b m 0,
    fun e m b => by
      have h := retryLoop_raise (α := PMGStructure) e b m 0
      simpa using h,
    fun m b => retryLoop_falsy b m 0⟩

/-- Claim C8 (code_bug): the claim states the emergency structure contains
one atom of the *first element* of the composition (placeholder only for an
empty composition).  The code builds the species list
`elements[:1] * max(1, len(elements))` — `n` copies of the first element for
an `n`-element composition — against a single coordinate, so for every
composition with 2 or more elements the `Structure` constructor raises a
length mismatch and the bare `except` returns the hydrogen placeholder: for
Na-Cl the single atom is "H", not "Na".  (For a one-element composition the
first element is used, and the empty composition gets the placeholder, as
claimed.) -/
theorem c8_placeholder_for_multi_element :
    _generate_emergency_structure [("Na", 1), ("Cl", 1)] = ⟨4096, ["H"], [(0, 0, 0)]⟩ ∧
    _generate_emergency_structure [("Si", 1)] = ⟨4096, ["Si"], [(0, 0, 0)]⟩ ∧
    _generate_emergency_structure [] = ⟨4096, ["H"], [(0, 0, 0)]⟩ := by decide

/-- Claim C10 (confirmed): the stoichiometry validator is total — it is a
function into `Bool`, the modelled `try/except ZeroDivisionError` absorbing
the only raising operation — and for a two-element composition whose second
count is zero (the undefined ratio `a/0`) it returns False. -/
theorem c10_zero_division_returns_false (x y : String) (a : ℚ) :
    is_valid_stoichiometry [(x, a), (y, 0)] = false := by
  simp [is_valid_stoichiometry]

unseal Rat.add Rat.sub Rat.mul Rat.inv in
/-- Claim C7, counterexample: the claim states that resolving the same
formula a second time returns the cached value with no additional external
database calls.  A formula resolved by the *emergency* stage is never
cached: for "NaCl" with database and substitution missing, the first call
returns the emergency structure leaving the cache unchanged, and the second
call runs the full pipeline again, making 5 fresh database-stage calls. -/
theorem c7_counterexample :
    (get_or_create_structure envMiss [] "NaCl").cache = [] ∧
    (get_or_create_structure envMiss
        (get_or_create_structure envMiss [] "NaCl").cache "NaCl").dbCalls = 5 := by
  exact ⟨by decide, by decide⟩

/-- Claim C7, amended: when the first resolution of a formula produced its
structure through the database, substitution, or prototype stage (and was
therefore validated and cached), resolving the same formula again returns
the identical structure value from the cache, leaves the cache unchanged,
and performs no database, substitution, or prototype-stage calls.  A formula
resolved by the emergency stage is not cached and a repeated resolution
re-runs the whole pipeline, including its external calls. -/
theorem c7_amended (env : Env) (cache : List (String × PMGStructure)) (formula : String)
    (h : (get_or_create_structure env cache formula).prov = some Prov.database ∨
      (get_or_create_structure env cache formula).prov = some Prov.substitution ∨
      (get_or_create_structure env cache formula).prov = some Prov.fallback) :
    (get_or_create_structure env (get_or_create_structure env cache formula).cache
        formula).result = (get_or_create_structure env cache formula).result ∧
    (get_or_create_structure env (get_or_create_structure env cache formula).cache
        formula).cache = (get_or_create_structure env cache formula).cache ∧
    (get_or_create_structure env (get_or_create_structure env cache formula).cache
        formula).dbCalls = 0 ∧
    (get_or_create_structure env (get_or_create_structure env cache formula).cache
        formula).subCalls = 0 ∧
    (get_or_create_structure env (get_or_create_structure env cache formula).cache
        formula).fbCalls = 0 := by
  have key : ∃ comp v, env.parse formula = some comp ∧
      ¬ is_valid_stoichiometry comp = false ∧
      (get_or_create_structure env cache formula).result = .ok v ∧
      (get_or_create_structure env cache formula).cache = dictInsert cache formula v := by
    simp only [get_or_create_structure] at h ⊢
    split at h
    · simp at h
    · rename_i comp hp
      split at h
      · simp at h
      · rename_i hv
        split at h
        · simp at h
        · rename_i hfind
          split at h
          · rename_i s hdb
            refine ⟨comp, _validate_structure s, hp, hv, ?_, ?_⟩ <;>
              simp [hv]
          · rename_i hdb
            split at h
            · rename_i s hsub
              refine ⟨comp, _validate_structure s, hp, hv, ?_, ?_⟩ <;>
                simp [hv]
            · rename_i hsub
              split at h
              · rename_i s hfb
                refine ⟨comp, _validate_structure s, hp, hv, ?_, ?_⟩ <;>
                  simp [hv]
              · simp at h
  obtain ⟨comp, v, hp, hv, hres, hc⟩ := key
  rw [hc, hres]
  have hfind : dictFind (dictInsert cache formula v) formula = some v := by
    rw [dictFind_insert]
    simp
  simp [get_or_create_structure, hp, hv, hfind]

unseal Rat.add Rat.sub Rat.mul Rat.inv in
/-- Witness for the amended C7 theorem: "NaCl" resolves through the
database stage under `envHit`, and the second resolution returns the cached
value with zero stage calls. -/
theorem c7_amended_witness :
    ((get_or_create_structure envHit [] "NaCl").prov = some Prov.database ∨
      (get_or_create_structure envHit [] "NaCl").prov = some Prov.substitution ∨
      (get_or_create_structure envHit [] "NaCl").prov = some Prov.fallback) ∧
    ((get_or_create_structure envHit (get_or_create_structure envHit [] "NaCl").cache
        "NaCl").result = (get_or_create_structure envHit [] "NaCl").result ∧
    (get_or_create_structure envHit (get_or_create_structure envHit [] "NaCl").cache
        "NaCl").cache = (get_or_create_structure envHit [] "NaCl").cache ∧
    (get_or_create_structure envHit (get_or_create_structure envHit [] "NaCl").cache
        "NaCl").dbCalls = 0 ∧
    (get_or_create_structure envHit (get_or_create_structure envHit [] "NaCl").cache
        "NaCl").subCalls = 0 ∧
    (get_or_create_structure envHit (get_or_create_structure envHit [] "NaCl").cache
        "NaCl").fbCalls = 0) :=
  ⟨Or.inl (by decide), c7_amended envHit [] "NaCl" (Or.inl (by decide))⟩

/-- Claim C9 (confirmed): every structure ever inserted into the cache by
the pipeline has passed `_validate_structure` — its sites are in sorted
order and it is the validator's output on the stage result (which rescales
the lattice when the volume was below 1) — and a call whose result came
from the emergency generator inserts nothing: the cache is unchanged. -/
theorem c9_cache_invariant (env : Env) (cache : List (String × PMGStructure))
    (formula : String) :
    (∀ f st, dictFind (get_or_create_structure env cache formula).cache f = some st →
        dictFind cache f = some st ∨
          (List.Sorted siteLe st.sites ∧ ∃ s, st = _validate_structure s)) ∧
    ((get_or_create_structure env cache formula).prov = some Prov.emergency →
        (get_or_create_structure env cache formula).cache = cache) := by
  simp only [get_or_create_structure]
  split
  · exact ⟨fun f st h => Or.inl h, fun _ => rfl⟩
  · split
    · exact ⟨fun f st h => Or.inl h, fun _ => rfl⟩
    · split
      · exact ⟨fun f st h => Or.inl h, fun _ => rfl⟩
      · split
        · refine ⟨?_, by simp⟩
          intro f st h
          simp only at h
          rw [dictFind_insert] at h
          split at h
          · obtain rfl : _validate_structure _ = st := Option.some.inj h
            exact Or.inr ⟨validate_sites_sorted _, _, rfl⟩
          · exact Or.inl h
        · split
          · refine ⟨?_, by simp⟩
            intro f st h
            simp only at h
            rw [dictFind_insert] at h
            split at h
            · obtain rfl : _validate_structure _ = st := Option.some.inj h
              exact Or.inr ⟨validate_sites_sorted _, _, rfl⟩
            · exact Or.inl h
          · split
            · refine ⟨?_, by simp⟩
              intro f st h
              simp only at h
              rw [dictFind_insert] at h
              split at h
              · obtain rfl : _validate_structure _ = st := Option.some.inj h
                exact Or.inr ⟨validate_sites_sorted _, _, rfl⟩
              · exact Or.inl h
            · exact ⟨fun f st h => Or.inl h, fun _ => rfl⟩

unseal Rat.add Rat.sub Rat.mul Rat.inv in
/-- Witness for the C9 theorem: under `envHit` the database stage succeeds
for "NaCl" and the inserted cache entry is validated (sorted sites, the
validator's output); under `envMiss` the same call ends in the emergency
stage and the cache stays empty. -/
theorem c9_witness :
    (dictFind ([] : List (String × PMGStructure)) "NaCl" =
        some (_validate_structure dbStruct) ∨
      (List.Sorted siteLe (_validate_structure dbStruct).sites ∧
        ∃ s, _validate_structure dbStruct = _validate_structure s)) ∧
    (get_or_create_structure envMiss [] "NaCl").cache = [] :=
  ⟨(c9_cache_invariant envHit [] "NaCl").1 "NaCl" (_validate_structure dbStruct)
      (by decide),
    (c9_cache_invariant envMiss [] "NaCl").2 (by decide)⟩

/-! ## Batch-processing lemmas and Claim C2 -/

theorem chunksGo_flatten {α : Type} (n : Nat) :
    ∀ (fuel : Nat) (l : List α), l.length ≤ fuel →
      (chunksGo (n + 1) fuel l).flatten = l := by
  intro fuel
  induction fuel with
  | zero =>
      intro l hl
      cases l with
      | nil => rfl
      | cons x xs => simp at hl
  | succ fuel ih =>
      intro l hl
      cases l with
      | nil => rfl
      | cons x xs =>
          simp only [chunksGo, List.flatten_cons, Nat.add_sub_cancel]
          rw [ih (xs.drop n) (by simp [List.length_drop]; simp at hl; omega)]
          rw [List.take_succ_cons, List.cons_append]
          congr 1
          exact List.take_append_drop n xs

theorem chunksGo_mem {α : Type} (n : Nat) :
    ∀ (fuel : Nat) (l : List α) (c : List α), c ∈ chunksGo (n + 1) fuel l →
      c.length ≤ n + 1 ∧ c ≠ [] := by
  intro fuel
  induction fuel with
  | zero =>
      intro l c hc
      cases l <;> simp [chunksGo] at hc
  | succ fuel ih =>
      intro l c hc
      cases l with
      | nil => simp [chunksGo] at hc
      | cons x xs =>
          simp only [chunksGo, Nat.add_sub_cancel] at hc
          rcases List.mem_cons.mp hc with rfl | hc
          · refine ⟨?_, by simp [List.take_succ_cons]⟩
            rw [List.length_take]
            exact Nat.min_le_left _ _
          · exact ih _ _ hc

theorem chunksGo_nil_eq {α : Type} (n fuel : Nat) :
    chunksGo n fuel ([] : List α) = [] := by
  cases fuel <;> rfl

theorem chunksGo_dropLast {α : Type} (n : Nat) :
    ∀ (fuel : Nat) (l : List α), l.length ≤ fuel →
      ∀ c ∈ (chunksGo (n + 1) fuel l).dropLast, c.length = n + 1 := by
  intro fuel
  induction fuel with
  | zero =>
      intro l hl c hc
      cases l with
      | nil => simp [chunksGo_nil_eq] at hc
      | cons x xs => simp at hl
  | succ fuel ih =>
      intro l hl c hc
      cases l with
      | nil => simp [chunksGo_nil_eq] at hc
      | cons x xs =>
          simp only [chunksGo, Nat.add_sub_cancel] at hc
          rcases hrest : chunksGo (n + 1) fuel (xs.drop n) with _ | ⟨c2, rest2⟩
          · rw [hrest] at hc
            simp at hc
          · rw [hrest] at hc
            rw [show (((x :: xs).take (n + 1)) :: c2 :: rest2).dropLast
                = ((x :: xs).take (n + 1)) :: (c2 :: rest2).dropLast from rfl] at hc
            rcases List.mem_cons.mp hc with rfl | hc
            · have hne : xs.drop n ≠ [] := by
                intro he
                rw [he, chunksGo_nil_eq] at hrest
                exact List.noConfusion hrest
              have hlen : n < xs.length := by
                rcases Nat.lt_or_ge n xs.length with h | h
                · exact h
                · exact absurd (List.drop_eq_nil_of_le h) hne
              rw [List.length_take]
              simp only [List.length_cons]
              omega
            · rw [← hrest] at hc
              exact ih (xs.drop n)
                (by simp [List.length_drop]; simp at hl; omega) c hc

theorem processOne_checkpoints (env : Env) (st : BatchState) (f : String) :
    (processOne env st f).checkpoints = st.checkpoints := by
  simp only [processOne]
  split <;> rfl

theorem foldl_processOne_checkpoints (env : Env) :
    ∀ (batch : List String) (st : BatchState),
      (batch.foldl (processOne env) st).checkpoints = st.checkpoints := by
  intro batch
  induction batch with
  | nil => intro st; rfl
  | cons f rest ih =>
      intro st
      rw [List.foldl_cons, ih, processOne_checkpoints]

theorem processBatch_checkpoints_length (env : Env) (st : BatchState)
    (batch : List String) :
    (processBatch env st batch).checkpoints.length = st.checkpoints.length + 1 := by
  simp [processBatch, foldl_processOne_checkpoints]

theorem foldl_processBatch_checkpoints_length (env : Env) :
    ∀ (chunks : List (List String)) (st : BatchState),
      (chunks.foldl (processBatch env) st).checkpoints.length
        = st.checkpoints.length + chunks.length := by
  intro chunks
  induction chunks with
  | nil => intro st; simp
  | cons c rest ih =>
      intro st
      rw [List.foldl_cons, ih, processBatch_checkpoints_length]
      simp only [List.length_cons]
      omega

theorem accounted_processOne_self (env : Env) (st : BatchState) (f : String) :
    Accounted (processOne env st f) f := by
  simp only [processOne, Accounted]
  split
  · left
    simp [dictFind_insert]
  · right
    simp

theorem accounted_processOne_mono (env : Env) (st : BatchState) (f g : String)
    (h : Accounted st g) : Accounted (processOne env st f) g := by
  simp only [processOne, Accounted] at h ⊢
  split
  · rcases h with h | h
    · left
      rw [dictFind_insert]
      split
      · simp
      · exact h
    · right
      exact h
  · rcases h with h | h
    · left
      exact h
    · right
      simp [h]

theorem accounted_foldl_mono (env : Env) :
    ∀ (batch : List String) (st : BatchState) (g : String),
      Accounted st g → Accounted (batch.foldl (processOne env) st) g := by
  intro batch
  induction batch with
  | nil => intro st g h; exact h
  | cons f rest ih =>
      intro st g h
      rw [List.foldl_cons]
      exact ih _ _ (accounted_processOne_mono env st f g h)

theorem accounted_foldl_self (env : Env) :
    ∀ (batch : List String) (st : BatchState) (g : String), g ∈ batch →
      Accounted (batch.foldl (processOne env) st) g := by
  intro batch
  induction batch with
  | nil => intro st g h; simp at h
  | cons f rest ih =>
      intro st g h
      rw [List.foldl_cons]
      rcases List.mem_cons.mp h with rfl | h
      · exact accounted_foldl_mono env rest _ g (accounted_processOne_self env st g)
      · exact ih _ g h

theorem accounted_processBatch_self (env : Env) (st : BatchState)
    (batch : List String) (g : String) (h : g ∈ batch) :
    Accounted (processBatch env st batch) g := by
  have hb := accounted_foldl_self env batch st g h
  simp only [processBatch, Accounted] at hb ⊢
  exact hb

theorem accounted_processBatch_mono (env : Env) (st : BatchState)
    (batch : List String) (g : String) (h : Accounted st g) :
    Accounted (processBatch env st batch) g := by
  have hb := accounted_foldl_mono env batch st g h
  simp only [processBatch, Accounted] at hb ⊢
  exact hb

theorem accounted_chunks (env : Env) :
    ∀ (chunks : List (List String)) (st : BatchState) (g : String),
      g ∈ chunks.flatten ∨ Accounted st g →
      Accounted (chunks.foldl (processBatch env) st) g := by
  intro chunks
  induction chunks with
  | nil =>
      intro st g h
      rcases h with h | h
      · simp at h
      · exact h
  | cons c rest ih =>
      intro st g h
      rw [List.foldl_cons]
      apply ih
      rcases h with h | h
      · rw [List.flatten_cons, List.mem_append] at h
        rcases h with h | h
        · exact Or.inr (accounted_processBatch_self env st c g h)
        · exact Or.inl h
      · exact Or.inr (accounted_processBatch_mono env st c g h)

unseal Rat.add Rat.sub Rat.mul Rat.inv in
/-- Claim C2, counterexample: the claim states that the returned mapping has
exactly one entry per input formula, an error marker standing in for a
structure when an unexpected exception escaped, with no formula dropped.
Processing ["NaCl", "Zz"] under `envMiss`, the unparseable "Zz" makes
`get_or_create_structure` raise (see C1); `process_formulas` catches the
exception, writes a `Zz_ERROR.cif` file — but adds *no* entry for "Zz" to
the mapping: the result has 1 entry for 2 input formulas. -/
theorem c2_counterexample :
    dictFind (process_formulas envMiss emptyBatchState ["NaCl", "Zz"] 5).results
        "Zz" = none ∧
    (process_formulas envMiss emptyBatchState ["NaCl", "Zz"] 5).results.map
        Prod.fst = ["NaCl"] ∧
    (process_formulas envMiss emptyBatchState ["NaCl", "Zz"] 5).errorFiles
        = ["Zz"] := by
  exact ⟨by decide, by decide, by decide⟩

/-- Claim C2, amended: `process_formulas` partitions its input into
consecutive batches of `batch_size` (every batch before the last has exactly
`batch_size` formulas, every batch is non-empty and no larger than
`batch_size`, and their concatenation is the input), writes one checkpoint
after each batch, and every input formula is either given an entry in the
returned mapping (when its processing returned a structure) or recorded by
an error-structure file (when its processing raised) — a raising formula is
*omitted* from the returned mapping rather than marked in it. -/
theorem c2_amended (env : Env) (st : BatchState) (formulas : List String)
    (n : Nat) (hn : 0 < n) :
    (chunksOf n formulas).flatten = formulas ∧
    (∀ c ∈ (chunksOf n formulas).dropLast, c.length = n) ∧
    (∀ c ∈ chunksOf n formulas, c.length ≤ n ∧ c ≠ []) ∧
    (process_formulas env st formulas n).checkpoints.length
        = st.checkpoints.length + (chunksOf n formulas).length ∧
    (∀ f ∈ formulas, Accounted (process_formulas env st formulas n) f) := by
  obtain ⟨m, rfl⟩ : ∃ m, n = m + 1 := ⟨n - 1, by omega⟩
  have hch : chunksOf (m + 1) formulas = chunksGo (m + 1) formulas.length formulas := by
    simp [chunksOf]
  refine ⟨?_, ?_, ?_, ?_, ?_⟩
  · rw [hch]
    exact chunksGo_flatten m formulas.length formulas (le_refl _)
  · rw [hch]
    exact chunksGo_dropLast m formulas.length formulas (le_refl _)
  · rw [hch]
    intro c hc
    exact chunksGo_mem m formulas.length formulas c hc
  · exact foldl_processBatch_checkpoints_length env (chunksOf (m + 1) formulas) st
  · intro f hf
    apply accounted_chunks
    left
    rw [hch]
    rw [chunksGo_flatten m formulas.length formulas (le_refl _)]
    exact hf

unseal Rat.add Rat.sub Rat.mul Rat.inv in
/-- Witness for the amended C2 theorem at the concrete batch run of
["NaCl", "Zz"] with batch size 5. -/
theorem c2_amended_witness :
    0 < 5 ∧
    ((chunksOf 5 ["NaCl", "Zz"]).flatten = ["NaCl", "Zz"] ∧
      (∀ c ∈ (chunksOf 5 ["NaCl", "Zz"]).dropLast, c.length = 5) ∧
      (∀ c ∈ chunksOf 5 ["NaCl", "Zz"], c.length ≤ 5 ∧ c ≠ []) ∧
      (process_formulas envMiss emptyBatchState ["NaCl", "Zz"] 5).checkpoints.length
          = emptyBatchState.checkpoints.length + (chunksOf 5 ["NaCl", "Zz"]).length ∧
      (∀ f ∈ ["NaCl", "Zz"],
        Accounted (process_formulas envMiss emptyBatchState ["NaCl", "Zz"] 5) f)) :=
  ⟨by decide, c2_amended envMiss emptyBatchState ["NaCl", "Zz"] 5 (by decide)⟩

end Bandgap
